import Mathlib

/-!
Verification of the WhatsApp↔CRM gateway core against its specification.

Each definition below is a shallow embedding of a function of the source:

* `handleDisconnection`   — ReconnectionManager.handleDisconnection
* `updateSessionStatusRow`, `loadAuthState`, `getActiveSessions`,
  `updateSessionStatusSafe` — SessionPersistence
* `checkSubscriptionLimits` — auth middleware limit guard
* `shouldThrottle`, `updateStats`, `processIteration`, `runLoop`,
  `sendImmediateStats` — MessageQueue
* `formatPhoneNumber` — GHLWebhookService.formatPhoneNumber
* `connectionCloseUpdate` — SessionManager connection.update close handler
* `postsFromRetry` — GHLWebhookService retry scheduling under total failure

Stateful JavaScript is modelled by explicit state passing; `setTimeout`
scheduling is recorded as data (the scheduled delay); database queries are
parameters of type `Except DbError _` so that error-swallowing behaviour is
visible in the types.
-/

/-! ### Reconnection manager (ReconnectionManager) -/

/-- `this.maxAttempts = 5` in the ReconnectionManager constructor. -/
def maxAttempts : Nat := 5

/-- `this.baseDelay = 5000` (5 seconds). -/
def baseDelay : Nat := 5000

/-- `this.maxDelay = 300000` (5 minutes). -/
def maxDelay : Nat := 300000

/-- The exponential-backoff delay `Math.min(baseDelay * Math.pow(2, attempts), maxDelay)`. -/
def reconnectDelay (attempts : Nat) : Nat :=
  min (baseDelay * 2 ^ attempts) maxDelay

/-- Arguments of one `updateSessionStatus(sessionId, status, phoneNumber, errorMessage)` call. -/
structure StatusUpdate where
  status : String
  phoneNumber : Option String
  errorMessage : Option String
deriving DecidableEq

/-- Observable outcome of one `ReconnectionManager.handleDisconnection` call:
the in-memory per-session counter afterwards (`none` = entry deleted or absent),
the `updateSessionStatus` call it issues, the value persisted via
`updateReconnectAttempts` (if any), and the `setTimeout` delay of the scheduled
reconnection attempt (if any). -/
structure ReconnectOutcome where
  counter : Option Nat
  statusUpdate : StatusUpdate
  persistedAttempts : Option Nat
  scheduledDelayMs : Option Nat
deriving DecidableEq

/-- `ReconnectionManager.handleDisconnection`, as a function of the per-session
in-memory attempt-counter entry (`this.reconnectionAttempts.get(sessionId)`).
`attempts` is the entry's value, defaulting to 0 when absent (`|| 0`). -/
def handleDisconnection (counter : Option Nat) : ReconnectOutcome :=
  let attempts := counter.getD 0
  if attempts ≥ maxAttempts then
    { counter := none
      statusUpdate :=
        ⟨"error", none, some ("Max reconnection attempts exceeded (" ++ toString maxAttempts ++ ")")⟩
      persistedAttempts := none
      scheduledDelayMs := none }
  else
    { counter := some (attempts + 1)
      statusUpdate := ⟨"connecting", none, none⟩
      persistedAttempts := some (attempts + 1)
      scheduledDelayMs := some (reconnectDelay attempts) }

/-! ### Session persistence (SessionPersistence) -/

/-- Database errors are opaque to the persistence layer. -/
abbrev DbError := String

/-- One row of the `whatsapp_sessions` table (the columns touched by
`updateSessionStatus`; timestamps as abstract ticks). -/
structure SessionRow where
  status : String
  phoneNumber : Option String
  errorMessage : Option String
  lastSeenAt : Nat
  updatedAt : Nat
deriving DecidableEq

/-- The row transformation of `SessionPersistence.updateSessionStatus`'s UPDATE:
`status = $1, phone_number = COALESCE($2, phone_number), error_message = $3,
last_seen_at = NOW(), updated_at = NOW()`. -/
def updateSessionStatusRow (now : Nat) (status : String)
    (phoneNumber errorMessage : Option String) (row : SessionRow) : SessionRow :=
  { row with
    status := status
    phoneNumber := match phoneNumber with
      | some p => some p
      | none => row.phoneNumber
    errorMessage := errorMessage
    lastSeenAt := now
    updatedAt := now }

/-- `SessionPersistence.loadAuthState`: the SELECT either fails or yields rows
whose `auth_state` column may be NULL. The catch block returns null, as does an
empty result set or a NULL `auth_state` in the first row. -/
def loadAuthState (query : Except DbError (List (Option String))) : Option String :=
  match query with
  | .error _ => none
  | .ok [] => none
  | .ok (r :: _) => r

/-- A row returned by `SessionPersistence.getActiveSessions`. -/
structure ActiveSessionRow where
  sessionId : String
  organizationId : String
  authState : String
  phoneNumber : Option String
deriving DecidableEq

/-- `SessionPersistence.getActiveSessions`: returns the rows of the SELECT, or
the empty list from the catch block on a query error. -/
def getActiveSessions (query : Except DbError (List ActiveSessionRow)) :
    List ActiveSessionRow :=
  match query with
  | .error _ => []
  | .ok rows => rows

/-- `SessionPersistence.updateSessionStatus` as run against a row: on query
success the UPDATE is applied; the catch block only logs, so on a query error
the function returns normally and the row is unchanged. The codomain is
`SessionRow` (not `Except`): no error is ever rethrown to the caller. -/
def updateSessionStatusSafe (now : Nat) (status : String)
    (phoneNumber errorMessage : Option String)
    (query : Except DbError Unit) (row : SessionRow) : SessionRow :=
  match query with
  | .error _ => row
  | .ok _ => updateSessionStatusRow now status phoneNumber errorMessage row

/-! ### Limit guard (checkSubscriptionLimits middleware) -/

/-- A `whatsapp_sessions` row as seen by the account-limit COUNT query. -/
structure WaSession where
  status : String
deriving DecidableEq

/-- `SELECT COUNT(*) FROM whatsapp_sessions WHERE organization_id = $1 AND status != 'error'`. -/
def nonErrorSessionCount (sessions : List WaSession) : Nat :=
  (sessions.filter (fun s => s.status != "error")).length

/-- The `usage_tracking` row for the current month. -/
structure UsageRow where
  messagesSent : Nat
  messagesReceived : Nat
deriving DecidableEq

/-- Outcome of the middleware: an early JSON rejection with an HTTP status and
the `error`/`current`/`limit` fields of the body, or fall-through to `next()`. -/
inductive LimitCheckResult where
  | reject (httpStatus : Nat) (error : String) (current limit : Nat)
  | proceed
deriving DecidableEq

/-- `checkSubscriptionLimits`: rejects 403 "Account limit reached" when the
count of non-error sessions has reached `organization.max_accounts`; otherwise
rejects 429 "Message limit reached" when the current month's usage row exists
and its message total has reached `max_messages_per_month`; otherwise `next()`. -/
def checkSubscriptionLimits (sessions : List WaSession) (maxAccounts : Nat)
    (usage : Option UsageRow) (maxMessagesPerMonth : Nat) : LimitCheckResult :=
  let sessionCount := nonErrorSessionCount sessions
  if sessionCount ≥ maxAccounts then
    .reject 403 "Account limit reached" sessionCount maxAccounts
  else
    match usage with
    | some u =>
      if u.messagesSent + u.messagesReceived ≥ maxMessagesPerMonth then
        .reject 429 "Message limit reached" (u.messagesSent + u.messagesReceived)
          maxMessagesPerMonth
      else .proceed
    | none => .proceed

/-! ### Phone number normalization (GHLWebhookService.formatPhoneNumber)

Strings are modelled as `List Char`.  JavaScript's `String.prototype.replace`
with a *string* pattern replaces only the first occurrence, which
`replaceFirst` mirrors. -/

/-- `pat` occurs at the start of the list (string `startsWith`). -/
def leadsWith : List Char → List Char → Bool
  | [], _ => true
  | _ :: _, [] => false
  | p :: ps, c :: cs => p == c && leadsWith ps cs

/-- `str.replace(pat, '')` for a string pattern: remove the first occurrence of
`pat`, if any. -/
def replaceFirst (pat : List Char) : List Char → List Char
  | [] => []
  | c :: cs =>
    if leadsWith pat (c :: cs) then (c :: cs).drop pat.length
    else c :: replaceFirst pat cs

/-- `pat` occurs somewhere in the list (string `includes`). -/
def hasSub (pat : List Char) : List Char → Bool
  | [] => leadsWith pat []
  | c :: cs => leadsWith pat (c :: cs) || hasSub pat cs

/-- The suffix stripped first: `'@s.whatsapp.net'`. -/
def waSuffix : List Char := "@s.whatsapp.net".toList

/-- The suffix stripped second: `'@c.us'`. -/
def cUsSuffix : List Char := "@c.us".toList

/-- The character class of the regex `/[\s-]/g`: whitespace or hyphen (the
JavaScript `\s` class restricted to its common members; the remaining Unicode
space separators behave identically for all theorems below). -/
def isWsOrHyphen (c : Char) : Bool :=
  c == ' ' || c == '\t' || c == '\n' || c == '\r' || c == '\x0b' || c == '\x0c' ||
  c == '\u00A0' || c == '-'

/-- `GHLWebhookService.formatPhoneNumber`: empty (falsy) input maps to the
empty string; otherwise strip the first occurrence of each suffix, delete all
whitespace and hyphens, and prepend `'+'` when absent. -/
def formatPhoneNumber (phoneNumber : List Char) : List Char :=
  if phoneNumber.isEmpty then []
  else
    let cleaned1 := replaceFirst waSuffix phoneNumber
    let cleaned2 := replaceFirst cUsSuffix cleaned1
    let cleaned3 := cleaned2.filter (fun c => !isWsOrHyphen c)
    if leadsWith ['+'] cleaned3 then cleaned3 else '+' :: cleaned3

/-! ### Outbound message queue (MessageQueue) -/

/-- `this.rateLimits.messagesPerMinute = 20`. -/
def messagesPerMinute : Nat := 20

/-- `this.rateLimits.delayBetweenMessages = 3000` (3 seconds). -/
def delayBetweenMessages : Nat := 3000

/-- A per-session `this.stats` entry: messages sent and the window start. -/
structure Stats where
  sent : Nat
  lastReset : Nat
deriving DecidableEq

/-- `MessageQueue.shouldThrottle`: no stats entry means no throttle; if more
than a minute has passed since `lastReset` the counter is reset (the code
mutates `this.stats`) and no throttle; otherwise throttle iff
`sent ≥ messagesPerMinute`.  Returns the decision and the stats entry
afterwards.  `lastReset < now - 60000` is written overflow-free as
`lastReset + 60000 < now`. -/
def shouldThrottle (now : Nat) : Option Stats → Bool × Option Stats
  | none => (false, none)
  | some s =>
    if s.lastReset + 60000 < now then (false, some ⟨0, now⟩)
    else (decide (s.sent ≥ messagesPerMinute), some s)

/-- `MessageQueue.updateStats`: missing entry starts at
`sent = 0, lastReset = now` and is then incremented; an existing entry keeps
its `lastReset`. -/
def updateStats (now : Nat) : Option Stats → Option Stats
  | none => some ⟨1, now⟩
  | some s => some ⟨s.sent + 1, s.lastReset⟩

/-- A queued outbound message (`{id, jid, content, attempts, ...}`); ids are
abstracted to naturals. -/
structure QueueItem where
  id : Nat
  jid : String
  content : String
  attempts : Nat
deriving DecidableEq

/-- State of one session's queue worker.  `attempted` is ghost
instrumentation: the ids of items for which a send was attempted, in order. -/
structure MQState where
  queue : List QueueItem
  stats : Option Stats
  now : Nat
  attempted : List Nat
deriving DecidableEq

/-- One iteration of the `while (queue.length > 0)` loop of
`MessageQueue.processQueue`, with the send outcome supplied by the oracle
`sends` (indexed by the number of attempts made so far).  Returns the new
state and the `delay(...)` the iteration ends with (`none` when it proceeds
immediately). The iteration: peek the head; if `shouldThrottle`, wait 60 s and
re-peek; on send success, pop, `updateStats`, wait 3 s; on send failure,
increment `attempts`, then pop (and drop when `attempts ≥ 3`), else re-append
at the tail and wait 5 s. -/
def processIteration (sends : Nat → Bool) (st : MQState) :
    MQState × Option Nat :=
  match st.queue with
  | [] => (st, none)
  | m :: rest =>
    let thr := shouldThrottle st.now st.stats
    if thr.1 then
      ({ st with stats := thr.2, now := st.now + 60000 }, some 60000)
    else
      if sends st.attempted.length then
        ({ st with
            queue := rest, stats := updateStats st.now thr.2,
            now := st.now + delayBetweenMessages,
            attempted := st.attempted ++ [m.id] }, some delayBetweenMessages)
      else
        if m.attempts + 1 ≥ 3 then
          ({ st with
              queue := rest, stats := thr.2,
              attempted := st.attempted ++ [m.id] }, none)
        else
          ({ st with
              queue := rest ++ [{ m with attempts := m.attempts + 1 }],
              stats := thr.2, now := st.now + 5000,
              attempted := st.attempted ++ [m.id] }, some 5000)

/-- The worker loop run for at most `fuel` iterations (it exits when the queue
empties). -/
def runLoop (sends : Nat → Bool) : Nat → MQState → MQState
  | 0, st => st
  | fuel + 1, st =>
    match st.queue with
    | [] => st
    | _ :: _ => runLoop sends fuel (processIteration sends st).1

/-- Effect of `MessageQueue.sendImmediate` on the shared `this.stats` entry:
the send bypasses the queue and `shouldThrottle`, but still calls
`this.updateStats(sessionId)`. -/
def sendImmediateStats (now : Nat) (stats : Option Stats) : Option Stats :=
  updateStats now stats

/-- Ids of the items of a queue. -/
def queueIds (q : List QueueItem) : List Nat := q.map (fun m => m.id)

/-- `n` successive `updateStats` calls, all within one window starting at `t`. -/
def iterUpdate (t : Nat) : Nat → Option Stats → Option Stats
  | 0, s => s
  | n + 1, s => iterUpdate t n (updateStats t s)

/-! ### Connection close handling (SessionManager connection.update) -/

/-- Baileys `DisconnectReason.loggedOut` (HTTP status 401 in the library). -/
def loggedOutCode : Nat := 401

/-- What the close handler schedules next. `recreateSession d` is the
`setTimeout(() => this.createSession(sessionId, callbacks), d)` the source
installs; `reconnectionHandoff` stands for invoking
`ReconnectionManager.handleDisconnection` (the hand-off the specification
describes; the class exists in the repository but this handler never calls
it). -/
inductive ScheduledCloseTask where
  | recreateSession (delayMs : Nat)
  | reconnectionHandoff
deriving DecidableEq

/-- Observable outcome of the `connection === 'close'` branch. -/
structure CloseResult where
  statusUpdate : StatusUpdate
  registryDeleted : Bool
  onDisconnectFired : Bool
  scheduled : Option ScheduledCloseTask
deriving DecidableEq

/-- The `connection === 'close'` branch of the persistence-aware
`SessionManager.createSession` event handler.  `statusCode` is
`lastDisconnect?.error?.output?.statusCode` (`none` when absent) and
`shouldReconnect` is its inequality with `DisconnectReason.loggedOut`;
`errMsg` is `lastDisconnect?.error?.message`. -/
def connectionCloseUpdate (statusCode : Option Nat) (errMsg : Option String) :
    CloseResult :=
  if statusCode ≠ some loggedOutCode then
    { statusUpdate := ⟨"disconnected", none, errMsg⟩
      registryDeleted := false
      onDisconnectFired := false
      scheduled := some (.recreateSession 3000) }
  else
    { statusUpdate := ⟨"disconnected", none, some "Logged out"⟩
      registryDeleted := true
      onDisconnectFired := true
      scheduled := none }

/-- The close behaviour asserted by the specification (section 4.C), for
comparison with `connectionCloseUpdate`: identical except that a non-logout
close hands the session off to the Reconnection Controller. -/
def specCloseBehavior (statusCode : Option Nat) (errMsg : Option String) :
    CloseResult :=
  if statusCode ≠ some loggedOutCode then
    { statusUpdate := ⟨"disconnected", none, errMsg⟩
      registryDeleted := false
      onDisconnectFired := false
      scheduled := some .reconnectionHandoff }
  else
    { statusUpdate := ⟨"disconnected", none, some "Logged out"⟩
      registryDeleted := true
      onDisconnectFired := true
      scheduled := none }

/-! ### GHL webhook retry (GHLWebhookService) -/

/-- `this.maxRetries = 3`. -/
def ghlMaxRetries : Nat := 3

/-- `this.retryDelay = 2000` (2 seconds). -/
def ghlRetryDelay : Nat := 2000

/-- The delay `this.retryDelay * Math.pow(2, retryCount)` of the retry timer
scheduled at retry count `r`. -/
def ghlRetryDelayAt (r : Nat) : Nat := ghlRetryDelay * 2 ^ r

/-- Number of webhook POSTs issued within `fuel` nested timer generations by
the retry chain `scheduleRetry` starts at `retryCount = r`, when every POST
fails.  As written, `sendMessageToGHL`'s catch block calls
`this.scheduleRetry(organizationId, messageData)` with the *default*
`retryCount = 0`, so each failed POST spawns a fresh chain at count 0
(`postsFromRetry fuel 0`) in addition to the counted retry its caller
schedules (`postsFromRetry fuel (r + 1)`). -/
def postsFromRetry : Nat → Nat → Nat
  | 0, _ => 0
  | fuel + 1, r =>
    if ghlMaxRetries ≤ r then 0
    else 1 + postsFromRetry fuel 0 + postsFromRetry fuel (r + 1)

/-- Total POSTs for an all-failing message within `fuel` timer generations:
the initial POST plus the chain it spawns at retry count 0. -/
def totalPostsAllFail (fuel : Nat) : Nat := 1 + postsFromRetry fuel 0

/-- The same recursion without the fresh chain the catch block spawns — the
behaviour the class's `maxRetries` field and "retry x/3" logging describe. -/
def intendedPostsFromRetry : Nat → Nat → Nat
  | 0, _ => 0
  | fuel + 1, r =>
    if ghlMaxRetries ≤ r then 0 else 1 + intendedPostsFromRetry fuel (r + 1)

/-! ### Theorems -/

/-- When the pattern does not occur, `replaceFirst` is the identity. -/
theorem replaceFirst_of_not_hasSub (pat : List Char) (l : List Char)
    (h : hasSub pat l = false) : replaceFirst pat l = l := by
  induction l with
  | nil => rfl
  | cons c cs ih =>
    unfold hasSub at h
    rw [Bool.or_eq_false_iff] at h
    unfold replaceFirst
    rw [if_neg (by simp [h.1]), ih h.2]

/-- `List.filter` is idempotent. -/
theorem filter_idem {α : Type} (q : α → Bool) (l : List α) :
    (l.filter q).filter q = l.filter q :=
  List.filter_eq_self.mpr (fun _ ha => List.of_mem_filter ha)

/-- A normalized nonempty number starts with `'+'`. -/
theorem formatPhoneNumber_leads_plus (x : List Char) (hx : x.isEmpty = false) :
    leadsWith ['+'] (formatPhoneNumber x) = true := by
  unfold formatPhoneNumber
  rw [if_neg (by simp [hx])]
  dsimp only
  cases h : leadsWith ['+']
      ((replaceFirst cUsSuffix (replaceFirst waSuffix x)).filter
        (fun c => !isWsOrHyphen c)) with
  | true => simp [h]
  | false => simp [h, leadsWith]

/-- A list starting with `'+'` is nonempty. -/
theorem leadsWith_ne_nil (l : List Char) (h : leadsWith ['+'] l = true) :
    l.isEmpty = false := by
  cases l with
  | nil => simp [leadsWith] at h
  | cons c cs => rfl

/-- A normalized number contains no whitespace and no hyphen. -/
theorem formatPhoneNumber_filter (x : List Char) :
    (formatPhoneNumber x).filter (fun c => !isWsOrHyphen c) =
      formatPhoneNumber x := by
  unfold formatPhoneNumber
  cases hx : x.isEmpty with
  | true => simp
  | false =>
    rw [if_neg (by simp)]
    dsimp only
    cases h : leadsWith ['+']
        ((replaceFirst cUsSuffix (replaceFirst waSuffix x)).filter
          (fun c => !isWsOrHyphen c)) with
    | true => simp [h, filter_idem]
    | false =>
      rw [if_neg (by simp [h]), List.filter_cons_of_pos (by decide),
        filter_idem]

/-- A list satisfying the three invariants of a normalized number, and free of
both suffixes, is a fixed point of `formatPhoneNumber`. -/
theorem formatPhoneNumber_fixed (y : List Char) (ha : y.isEmpty = false)
    (hb : leadsWith ['+'] y = true)
    (hc : y.filter (fun c => !isWsOrHyphen c) = y)
    (hd : hasSub waSuffix y = false) (he : hasSub cUsSuffix y = false) :
    formatPhoneNumber y = y := by
  unfold formatPhoneNumber
  rw [if_neg (by simp [ha])]
  dsimp only
  rw [replaceFirst_of_not_hasSub _ _ hd, replaceFirst_of_not_hasSub _ _ he, hc,
    if_pos (by simp [hb])]

/-- C3 counterexample: `formatPhoneNumber` is not idempotent for all inputs.
`String.replace` strips only the first occurrence of each suffix, so the input
"1@c.us@c.us" normalizes to "+1@c.us", which normalizes again to "+1". -/
theorem formatPhoneNumber_not_idempotent :
    formatPhoneNumber (formatPhoneNumber ("1@c.us@c.us".toList)) ≠
      formatPhoneNumber ("1@c.us@c.us".toList) := by
  decide

/-- C3 (amended): `formatPhoneNumber` is idempotent on every input whose
normalized form retains no occurrence of `'@s.whatsapp.net'` or `'@c.us'`
(the code strips only the first occurrence of each suffix). -/
theorem formatPhoneNumber_idem (x : List Char)
    (h1 : hasSub waSuffix (formatPhoneNumber x) = false)
    (h2 : hasSub cUsSuffix (formatPhoneNumber x) = false) :
    formatPhoneNumber (formatPhoneNumber x) = formatPhoneNumber x := by
  cases hx : x.isEmpty with
  | true =>
    have hempty : formatPhoneNumber x = [] := by
      unfold formatPhoneNumber
      rw [if_pos (by simp [hx])]
    rw [hempty]
    decide
  | false =>
    have hb := formatPhoneNumber_leads_plus x hx
    exact formatPhoneNumber_fixed _ (leadsWith_ne_nil _ hb) hb
      (formatPhoneNumber_filter x) h1 h2

/-- Witness for C3 (amended) on the number "052 123-4567@s.whatsapp.net". -/
theorem formatPhoneNumber_idem_witness :
    hasSub waSuffix (formatPhoneNumber ("052 123-4567@s.whatsapp.net".toList))
        = false ∧
    hasSub cUsSuffix (formatPhoneNumber ("052 123-4567@s.whatsapp.net".toList))
        = false ∧
    formatPhoneNumber
        (formatPhoneNumber ("052 123-4567@s.whatsapp.net".toList)) =
      formatPhoneNumber ("052 123-4567@s.whatsapp.net".toList) :=
  ⟨by decide, by decide, formatPhoneNumber_idem _ (by decide) (by decide)⟩

/-- C1: Handling a non-logout disconnect with attempt counter `n`: when
`n ≥ maxAttempts = 5` the session status is set to `error` with reason
"Max reconnection attempts exceeded" (the code appends " (5)"), the counter
entry is removed and no reconnect is scheduled; when `n < 5` the counter
becomes `n+1` and is persisted, status is set to `connecting`, and a reconnect
is scheduled after `min(5000·2^n, 300000)` ms; the delays for `n = 0..5` are
5, 10, 20, 40, 80, 160 seconds. -/
theorem handleDisconnection_spec (n : Nat) :
    (maxAttempts ≤ n →
      handleDisconnection (some n) =
        { counter := none
          statusUpdate :=
            ⟨"error", none, some ("Max reconnection attempts exceeded" ++ " (5)")⟩
          persistedAttempts := none
          scheduledDelayMs := none }) ∧
    (n < maxAttempts →
      handleDisconnection (some n) =
        { counter := some (n + 1)
          statusUpdate := ⟨"connecting", none, none⟩
          persistedAttempts := some (n + 1)
          scheduledDelayMs := some (min (5000 * 2 ^ n) 300000) }) ∧
    [0, 1, 2, 3, 4, 5].map reconnectDelay =
      [5000, 10000, 20000, 40000, 80000, 160000] := by
  refine ⟨fun h => ?_, fun h => ?_, by decide⟩
  · simp only [handleDisconnection, Option.getD_some, maxAttempts] at *
    rw [if_pos (by omega)]
    decide
  · simp only [handleDisconnection, Option.getD_some, maxAttempts, reconnectDelay,
      baseDelay, maxDelay] at *
    rw [if_neg (by omega)]

/-- Witness for C1 at `n = 6` (max exceeded) and `n = 2` (reconnect scheduled
after 20 s). -/
theorem handleDisconnection_spec_witness :
    handleDisconnection (some 6) =
      { counter := none
        statusUpdate :=
          ⟨"error", none, some ("Max reconnection attempts exceeded" ++ " (5)")⟩
        persistedAttempts := none
        scheduledDelayMs := none } ∧
    handleDisconnection (some 2) =
      { counter := some 3
        statusUpdate := ⟨"connecting", none, none⟩
        persistedAttempts := some 3
        scheduledDelayMs := some (min (5000 * 2 ^ 2) 300000) } :=
  ⟨(handleDisconnection_spec 6).1 (by decide),
   (handleDisconnection_spec 2).2.1 (by decide)⟩

/-- C7: `updateSessionStatus` with a null `phoneNumber` argument updates
`status`, `error_message` and `last_seen_at` but leaves `phone_number`
unchanged; with a non-null argument it overwrites `phone_number`. -/
theorem updateSessionStatus_phone_frame (row : SessionRow) (now : Nat)
    (st : String) (err : Option String) :
    (updateSessionStatusRow now st none err row).phoneNumber = row.phoneNumber ∧
    (updateSessionStatusRow now st none err row).status = st ∧
    (updateSessionStatusRow now st none err row).errorMessage = err ∧
    (updateSessionStatusRow now st none err row).lastSeenAt = now ∧
    ∀ p : String,
      (updateSessionStatusRow now st (some p) err row).phoneNumber = some p := by
  refine ⟨rfl, rfl, rfl, rfl, fun p => rfl⟩

/-- C9: persistence reads and status updates swallow storage failures: on any
query error `loadAuthState` returns null, `getActiveSessions` returns the empty
list, and `updateSessionStatus` returns normally leaving the row unchanged. -/
theorem persistence_swallows_errors (e : DbError) (now : Nat) (st : String)
    (ph err : Option String) (row : SessionRow) :
    loadAuthState (.error e) = none ∧
    getActiveSessions (.error e) = [] ∧
    updateSessionStatusSafe now st ph err (.error e) row = row := by
  exact ⟨rfl, rfl, rfl⟩

/-- C8: when the count of non-error sessions of an organization has reached
`max_accounts`, `checkSubscriptionLimits` rejects with HTTP 403 and body fields
`error = "Account limit reached"`, `current` = the count, `limit` = the cap. -/
theorem checkSubscriptionLimits_account_cap (sessions : List WaSession)
    (maxAccounts : Nat) (usage : Option UsageRow) (maxMsg : Nat)
    (h : maxAccounts ≤ nonErrorSessionCount sessions) :
    checkSubscriptionLimits sessions maxAccounts usage maxMsg =
      .reject 403 "Account limit reached" (nonErrorSessionCount sessions)
        maxAccounts := by
  unfold checkSubscriptionLimits
  rw [if_pos (by omega)]

/-- Witness for C8: with `max_accounts = 1` and one connected session, a
session-create request is rejected with 403
`error = "Account limit reached", current = 1, limit = 1`. -/
theorem checkSubscriptionLimits_account_cap_witness :
    checkSubscriptionLimits [⟨"connected"⟩] 1 none 1000 =
      .reject 403 "Account limit reached" 1 1 := by
  have h := checkSubscriptionLimits_account_cap [⟨"connected"⟩] 1 none 1000
    (by decide)
  simpa using h

/-- C4 counterexample: on a non-logout close (Baileys status code 428) the
handler schedules a direct `createSession` retry after a fixed 3000 ms and
does not hand the session off to the Reconnection Controller, contrary to the
claim. -/
theorem connectionClose_no_handoff :
    (connectionCloseUpdate (some 428) (some "Connection Terminated")).scheduled
        = some (ScheduledCloseTask.recreateSession 3000) ∧
    (connectionCloseUpdate (some 428) (some "Connection Terminated")).scheduled
        ≠ some ScheduledCloseTask.reconnectionHandoff ∧
    connectionCloseUpdate (some 428) (some "Connection Terminated") ≠
      specCloseBehavior (some 428) (some "Connection Terminated") := by
  decide

/-- C4 (amended): a logout close marks the session disconnected with message
"Logged out", deletes the registry entry, fires onDisconnect and schedules no
reconnection; any other close marks the session disconnected with the close
error, keeps the registry entry, does not fire onDisconnect, and schedules a
direct re-create of the session after a fixed 3-second delay rather than a
Reconnection Controller hand-off. -/
theorem connectionClose_spec (code : Option Nat) (msg : Option String) :
    (code ≠ some loggedOutCode →
      connectionCloseUpdate code msg =
        { statusUpdate := ⟨"disconnected", none, msg⟩
          registryDeleted := false
          onDisconnectFired := false
          scheduled := some (.recreateSession 3000) }) ∧
    connectionCloseUpdate (some loggedOutCode) msg =
      { statusUpdate := ⟨"disconnected", none, some "Logged out"⟩
        registryDeleted := true
        onDisconnectFired := true
        scheduled := none } := by
  constructor
  · intro h
    unfold connectionCloseUpdate
    rw [if_pos h]
  · unfold connectionCloseUpdate
    rw [if_neg (by simp)]

/-- Witness for C4 (amended) at close code 428. -/
theorem connectionClose_spec_witness :
    connectionCloseUpdate (some 428) (some "boom") =
      { statusUpdate := ⟨"disconnected", none, some "boom"⟩
        registryDeleted := false
        onDisconnectFired := false
        scheduled := some (.recreateSession 3000) } :=
  (connectionClose_spec (some 428) (some "boom")).1 (by decide)

/-- One-step unfolding of `postsFromRetry`. -/
theorem postsFromRetry_succ (fuel r : Nat) :
    postsFromRetry (fuel + 1) r =
      if ghlMaxRetries ≤ r then 0
      else 1 + postsFromRetry fuel 0 + postsFromRetry fuel (r + 1) := rfl

/-- C2 (code bug): against a webhook that fails on every attempt the service
issues 15 POSTs within four timer generations — not the documented
4 = initial + 3 retries that the fresh-chain-free recursion yields — because
`sendMessageToGHL`'s catch calls `scheduleRetry` without the current retry
count; the per-chain delays are `2000·2^r` ms for r = 0, 1, 2, and the POST
count only grows as the horizon extends. -/
theorem webhook_retry_unbounded :
    totalPostsAllFail 4 = 15 ∧ 4 < totalPostsAllFail 4 ∧
    1 + intendedPostsFromRetry 4 0 = 4 ∧
    [0, 1, 2].map ghlRetryDelayAt = [2000, 4000, 8000] ∧
    ∀ fuel r, postsFromRetry fuel r ≤ postsFromRetry (fuel + 1) r := by
  refine ⟨by decide, by decide, by decide, by decide, ?_⟩
  intro fuel
  induction fuel with
  | zero => intro r; simp [postsFromRetry]
  | succ fuel ih =>
    intro r
    rw [postsFromRetry_succ, postsFromRetry_succ]
    by_cases h : ghlMaxRetries ≤ r
    · rw [if_pos h, if_pos h]
    · rw [if_neg h, if_neg h]
      have h0 := ih 0
      have h1 := ih (r + 1)
      omega

/-- One iteration never introduces a new id into the queue. -/
theorem processIteration_ids_subset (sends : Nat → Bool) (st : MQState)
    (x : Nat) (hx : x ∈ queueIds (processIteration sends st).1.queue) :
    x ∈ queueIds st.queue := by
  rcases hq : st.queue with _ | ⟨m, rest⟩
  · simpa [processIteration, hq] using hx
  · simp only [processIteration, hq] at hx
    split_ifs at hx <;>
      simp only [queueIds, List.map_cons, List.map_append, List.map_nil,
        List.mem_cons, List.mem_append, List.mem_singleton] at hx ⊢ <;>
      tauto

/-- An id absent from the queue is not attempted by an iteration and stays
absent. -/
theorem processIteration_count_of_not_mem (sends : Nat → Bool) (st : MQState)
    (x : Nat) (hx : x ∉ queueIds st.queue) :
    ((processIteration sends st).1.attempted).count x =
      st.attempted.count x ∧
    x ∉ queueIds (processIteration sends st).1.queue := by
  refine ⟨?_, fun hmem => hx (processIteration_ids_subset sends st x hmem)⟩
  rcases hq : st.queue with _ | ⟨m, rest⟩
  · simp [processIteration, hq]
  · have hxm : m.id ≠ x := by
      intro h
      exact hx (by simp [hq, queueIds, h])
    simp only [processIteration, hq]
    split_ifs <;>
      simp [List.count_append, List.count_cons, List.count_nil, hxm]

/-- An id absent from the queue is never attempted by any further run of the
worker loop. -/
theorem runLoop_count_of_not_mem (sends : Nat → Bool) (fuel : Nat)
    (st : MQState) (x : Nat) (hx : x ∉ queueIds st.queue) :
    ((runLoop sends fuel st).attempted).count x = st.attempted.count x := by
  induction fuel generalizing st with
  | zero => rfl
  | succ fuel ih =>
    rcases hq : st.queue with _ | ⟨m, rest⟩
    · simp [runLoop, hq]
    · have h := processIteration_count_of_not_mem sends st x hx
      simp only [runLoop, hq]
      rw [ih _ h.2, h.1]

/-- C5: when the head item's send attempt fails the worker increments its
`attempts`; if `attempts` has then reached 3 the item is popped with no sleep
and — its id being unique in the queue — no later iteration ever attempts it
again; otherwise the item is popped from the head and re-appended at the tail
after the remaining items in their original order, and the worker sleeps
5 seconds. -/
theorem processQueue_failure_handling (sends : Nat → Bool) (st : MQState)
    (m : QueueItem) (rest : List QueueItem)
    (hq : st.queue = m :: rest)
    (hthr : (shouldThrottle st.now st.stats).1 = false)
    (hfail : sends st.attempted.length = false) :
    (3 ≤ m.attempts + 1 →
      (processIteration sends st).1.queue = rest ∧
      (processIteration sends st).2 = none ∧
      (m.id ∉ queueIds rest →
        ∀ fuel,
          ((runLoop sends fuel
              (processIteration sends st).1).attempted).count m.id =
            st.attempted.count m.id + 1)) ∧
    (m.attempts + 1 < 3 →
      (processIteration sends st).1.queue =
        rest ++ [{ m with attempts := m.attempts + 1 }] ∧
      (processIteration sends st).2 = some 5000) := by
  by_cases h3 : 3 ≤ m.attempts + 1
  · have hstep : (processIteration sends st).1.queue = rest ∧
        (processIteration sends st).2 = none ∧
        (processIteration sends st).1.attempted = st.attempted ++ [m.id] := by
      refine ⟨?_, ?_, ?_⟩ <;> simp [processIteration, hq, hthr, hfail, h3]
    refine ⟨fun _ => ⟨hstep.1, hstep.2.1, fun hunique fuel => ?_⟩,
      fun hlt => absurd h3 (by omega)⟩
    have hx : m.id ∉ queueIds (processIteration sends st).1.queue := by
      rw [hstep.1]
      exact hunique
    rw [runLoop_count_of_not_mem sends fuel _ _ hx, hstep.2.2]
    simp [List.count_append]
  · have hstep : (processIteration sends st).1.queue =
        rest ++ [{ m with attempts := m.attempts + 1 }] ∧
        (processIteration sends st).2 = some 5000 := by
      constructor <;> simp [processIteration, hq, hthr, hfail, h3]
    exact ⟨fun h => absurd h h3, fun _ => hstep⟩

/-- Witness for C5: with every send failing, the head item at `attempts = 2`
is dropped on its third failure with no sleep and is attempted exactly once
over the next four iterations; a head item at `attempts = 0` is re-appended at
the tail with `attempts = 1` and a 5-second sleep. -/
theorem processQueue_failure_handling_witness :
    (processIteration (fun _ => false)
        ⟨[⟨1, "a", "x", 2⟩, ⟨2, "b", "y", 0⟩], none, 0, []⟩).1.queue =
      [⟨2, "b", "y", 0⟩] ∧
    (processIteration (fun _ => false)
        ⟨[⟨1, "a", "x", 2⟩, ⟨2, "b", "y", 0⟩], none, 0, []⟩).2 = none ∧
    ((runLoop (fun _ => false) 4
        (processIteration (fun _ => false)
          ⟨[⟨1, "a", "x", 2⟩, ⟨2, "b", "y", 0⟩], none, 0, []⟩).1).attempted).count
        1 = 1 ∧
    (processIteration (fun _ => false)
        ⟨[⟨3, "c", "z", 0⟩], none, 0, []⟩).1.queue = [⟨3, "c", "z", 1⟩] ∧
    (processIteration (fun _ => false) ⟨[⟨3, "c", "z", 0⟩], none, 0, []⟩).2 =
      some 5000 := by
  have h1 := processQueue_failure_handling (fun _ => false)
      ⟨[⟨1, "a", "x", 2⟩, ⟨2, "b", "y", 0⟩], none, 0, []⟩
      ⟨1, "a", "x", 2⟩ [⟨2, "b", "y", 0⟩] rfl (by decide) rfl
  have h2 := processQueue_failure_handling (fun _ => false)
      ⟨[⟨3, "c", "z", 0⟩], none, 0, []⟩ ⟨3, "c", "z", 0⟩ [] rfl (by decide) rfl
  refine ⟨(h1.1 (by decide)).1, (h1.1 (by decide)).2.1, ?_,
    (h2.2 (by decide)).1, (h2.2 (by decide)).2⟩
  have hc := (h1.1 (by decide)).2.2 (by decide) 4
  simpa using hc

/-- `n` in-window `updateStats` calls add `n` to the counter. -/
theorem iterUpdate_some (t : Nat) (n : Nat) : ∀ k r : Nat,
    iterUpdate t n (some ⟨k, r⟩) = some ⟨k + n, r⟩ := by
  induction n with
  | zero => intro k r; rfl
  | succ n ih =>
    intro k r
    show iterUpdate t n (updateStats t (some ⟨k, r⟩)) = some ⟨k + (n + 1), r⟩
    rw [show updateStats t (some ⟨k, r⟩) = some ⟨k + 1, r⟩ from rfl, ih,
      show k + 1 + n = k + (n + 1) from by omega]

/-- C6: after exactly `messagesPerMinute = 20` sends within a 60-second window
the stats entry reads 20 and `shouldThrottle` reports exhaustion for the next
send, and the worker's iteration on that send sleeps 60 seconds, leaves the
queue unchanged (so the same head is re-peeked next), and attempts nothing. -/
theorem throttle_after_twenty_sends (t now : Nat) (st : MQState)
    (m : QueueItem) (rest : List QueueItem) (sends : Nat → Bool)
    (hwindow : ¬ t + 60000 < now)
    (hstats : st.stats = some ⟨messagesPerMinute, t⟩)
    (hnow : st.now = now) (hq : st.queue = m :: rest) :
    iterUpdate t messagesPerMinute none = some ⟨messagesPerMinute, t⟩ ∧
    (shouldThrottle now (some ⟨messagesPerMinute, t⟩)).1 = true ∧
    (processIteration sends st).2 = some 60000 ∧
    (processIteration sends st).1.queue = m :: rest ∧
    (processIteration sends st).1.attempted = st.attempted := by
  have hsth : shouldThrottle now (some ⟨messagesPerMinute, t⟩) =
      (true, some ⟨messagesPerMinute, t⟩) := by
    show (if t + 60000 < now then _ else _) = _
    rw [if_neg hwindow]
    simp [messagesPerMinute]
  have hiter : iterUpdate t messagesPerMinute none =
      some ⟨messagesPerMinute, t⟩ := by
    show iterUpdate t 19 (some ⟨1, t⟩) = some ⟨messagesPerMinute, t⟩
    rw [iterUpdate_some]
    rfl
  refine ⟨hiter, by rw [hsth], ?_, ?_, ?_⟩ <;>
    simp [processIteration, hq, hnow, hstats, hsth]

/-- Witness for C6 at `t = 0, now = 30000` with a single queued item. -/
theorem throttle_after_twenty_sends_witness :
    iterUpdate 0 messagesPerMinute none = some ⟨messagesPerMinute, 0⟩ ∧
    (shouldThrottle 30000 (some ⟨messagesPerMinute, 0⟩)).1 = true ∧
    (processIteration (fun _ => true)
        ⟨[⟨7, "j", "c", 0⟩], some ⟨messagesPerMinute, 0⟩, 30000, []⟩).2 =
      some 60000 ∧
    (processIteration (fun _ => true)
        ⟨[⟨7, "j", "c", 0⟩], some ⟨messagesPerMinute, 0⟩, 30000, []⟩).1.queue =
      [⟨7, "j", "c", 0⟩] := by
  have h := throttle_after_twenty_sends 0 30000
      ⟨[⟨7, "j", "c", 0⟩], some ⟨messagesPerMinute, 0⟩, 30000, []⟩
      ⟨7, "j", "c", 0⟩ [] (fun _ => true) (by decide) rfl rfl rfl
  exact ⟨h.1, h.2.1, h.2.2.1, h.2.2.2.1⟩

/-- C10: an immediate send increments the same per-minute counter the throttle
check consults — afterwards the throttle decision within the window is that of
`sent + 1` — and the queued success path updates the shared stats entry with
the very same `updateStats`. -/
theorem sendImmediate_counts_toward_throttle (s : Stats) (now : Nat)
    (hwindow : ¬ s.lastReset + 60000 < now) :
    sendImmediateStats now (some s) = some ⟨s.sent + 1, s.lastReset⟩ ∧
    (shouldThrottle now (some s)).1 = decide (messagesPerMinute ≤ s.sent) ∧
    (shouldThrottle now (sendImmediateStats now (some s))).1 =
      decide (messagesPerMinute ≤ s.sent + 1) ∧
    ∀ (st : MQState) (m : QueueItem) (rest : List QueueItem)
        (sends : Nat → Bool),
      st.queue = m :: rest →
      (shouldThrottle st.now st.stats).1 = false →
      sends st.attempted.length = true →
      (processIteration sends st).1.stats =
        updateStats st.now (shouldThrottle st.now st.stats).2 := by
  refine ⟨rfl, ?_, ?_, ?_⟩
  · simp only [shouldThrottle]
    rw [if_neg hwindow]
  · simp only [sendImmediateStats, updateStats, shouldThrottle]
    rw [if_neg hwindow]
  · intro st m rest sends hq hthr hsend
    simp [processIteration, hq, hthr, hsend]

/-- Witness for C10: 19 sends in the window, then one immediate send; the
20th queued send would have passed the throttle before the immediate send and
is throttled after it. -/
theorem sendImmediate_counts_toward_throttle_witness :
    sendImmediateStats 30000 (some ⟨19, 0⟩) = some ⟨20, 0⟩ ∧
    (shouldThrottle 30000 (some ⟨19, 0⟩)).1 = false ∧
    (shouldThrottle 30000 (sendImmediateStats 30000 (some ⟨19, 0⟩))).1 =
      true := by
  have h := sendImmediate_counts_toward_throttle ⟨19, 0⟩ 30000 (by decide)
  exact ⟨h.1, by rw [h.2.1]; decide, by rw [h.2.2.1]; decide⟩
